import Mathlib

/-!
Verification of the beri-cosplay rental-catalog backend against its design
specification.  The Python source is shallowly embedded: pure helpers become
Lean functions, database-session code becomes explicit state passing over a
list of rows, and exceptions become `Except`-valued results paired with the
(unchanged) database state.  Floating-point prices are modelled by exact
rationals; this is sound for every property below, none of which depends on
rounding of prices.
-/

namespace BeriCosplay

/-! ## Data model (src/app/models/costume.py, src/app/models/user.py) -/

/-- Gender enum from app.models.costume. -/
inductive Gender
  | male
  | female
  | unisex
deriving DecidableEq, Repr

/-- AgeCategory enum from app.models.costume. -/
inductive AgeCategory
  | child
  | teen
  | adult
  | universal
deriving DecidableEq, Repr

/-- One generated image variant record, the dict appended to
`variants_created` in ImageProcessor.process_image. -/
structure ImageVariantRec where
  format : String
  width : Nat
  height : Nat
  quality : Nat
  path : String
  size : Nat
  suffix : String
deriving DecidableEq, Repr

/-- The processed-image descriptor returned by ImageProcessor.process_image
(and schema ImageInfo). -/
structure ImageInfo where
  original_name : String
  hash : String
  original_path : String
  variants : List ImageVariantRec
  total_size : Nat
deriving DecidableEq, Repr

/-- Costume row (app.models.costume.Costume).  `amount` is an SQL Integer,
so it is an unbounded `Int` here; timestamps are abstract ticks. -/
structure Costume where
  id : Nat
  name : String
  description : Option String
  amount : Int
  price : Option ℚ
  gender : Gender
  age_category : AgeCategory
  size : Option String
  tags : List String
  items : Option String
  images : List ImageInfo
  related_costumes : List Nat
  created_at : Nat
  updated_at : Nat
  is_active : Bool
deriving DecidableEq, Repr

/-- UserRole enum from app.models.user. -/
inductive UserRole
  | user
  | admin
  | super_admin
deriving DecidableEq, Repr

/-- User row (app.models.user.User). -/
structure User where
  id : Nat
  email : String
  username : String
  full_name : Option String
  hashed_password : String
  role : UserRole
  is_active : Bool
  is_verified : Bool
  created_at : Nat
deriving DecidableEq, Repr

/-- The error outcomes raised as HTTPException in the CRUD layer and the
routers: 404 Not Found, 400 Bad Request, 403 Forbidden. -/
inductive ApiError
  | notFound
  | badRequest
  | forbidden
deriving DecidableEq, Repr

/-! ## CostumeCRUD.update_amount (src/app/crud/costume.py lines 260-283)

A database session is a list of costume rows; raising an HTTPException
before `db.commit()` leaves the database unchanged, so a failing call
returns the original list. -/

/-- Lookup by primary key: CostumeCRUD.get_by_id. -/
def get_by_id (db : List Costume) (costume_id : Nat) : Option Costume :=
  db.find? (fun c => c.id == costume_id)

/-- CostumeCRUD.update_amount: add `delta` to the current amount, raising
400 "Cannot reduce amount below zero" when the result would be negative,
404 when the costume does not exist; otherwise commit the new amount. -/
def update_amount (db : List Costume) (costume_id : Nat) (delta : Int) :
    Except ApiError Costume × List Costume :=
  match get_by_id db costume_id with
  | none => (Except.error ApiError.notFound, db)
  | some costume =>
    let new_amount := costume.amount + delta
    if new_amount < 0 then
      (Except.error ApiError.badRequest, db)
    else
      let c2 := { costume with amount := new_amount }
      (Except.ok c2, db.map (fun x => if x.id == costume_id then c2 else x))

/-- Sample costume row used to instantiate hypotheses of the theorems on
concrete inputs. -/
def sampleCostume (i : Nat) (nm : String) (amt : Int) (tgs : List String) :
    Costume :=
  { id := i, name := nm, description := none, amount := amt, price := none,
    gender := Gender.unisex, age_category := AgeCategory.universal,
    size := none, tags := tgs, items := none, images := [],
    related_costumes := [], created_at := i, updated_at := i,
    is_active := true }

end BeriCosplay

namespace BeriCosplay

/-! ## ImageProcessor (src/app/core/images.py)

The processor's configuration: upload root "uploads", and the fixed variant
matrix from `ImageProcessor.__init__`. -/

/-- One entry of `self.variants` in ImageProcessor.__init__. -/
structure VariantSpec where
  format : String
  width : Nat
  height : Nat
  quality : Nat
  suffix : String
deriving DecidableEq, Repr

/-- The nine-entry variant matrix defined in ImageProcessor.__init__:
3 size classes (thumb 200, medium 800, large 1920) x 3 formats
(webp, avif, jpg) with qualities 80/85/90 per size class. -/
def variantMatrix : List VariantSpec :=
  [ ⟨"webp", 200, 200, 80, "_thumb"⟩,
    ⟨"avif", 200, 200, 80, "_thumb"⟩,
    ⟨"jpg", 200, 200, 80, "_thumb"⟩,
    ⟨"webp", 800, 800, 85, "_medium"⟩,
    ⟨"avif", 800, 800, 85, "_medium"⟩,
    ⟨"jpg", 800, 800, 85, "_medium"⟩,
    ⟨"webp", 1920, 1920, 90, "_large"⟩,
    ⟨"avif", 1920, 1920, 90, "_large"⟩,
    ⟨"jpg", 1920, 1920, 90, "_large"⟩ ]

/-- Splits a character list at every occurrence of `sep` (the pieces do not
contain `sep`); the character-level analogue of str.split. -/
def splitCharAux (sep : Char) : List Char → List Char → List (List Char)
  | [], acc => [acc.reverse]
  | c :: cs, acc =>
    if c = sep then acc.reverse :: splitCharAux sep cs []
    else splitCharAux sep cs (c :: acc)

/-- Splits a character list at every occurrence of `sep`. -/
def splitChar (sep : Char) (s : List Char) : List (List Char) :=
  splitCharAux sep s []

/-- Final path component, as pathlib computes it (the part after the last
slash). -/
def lastComponent (s : String) : String :=
  String.mk ((splitChar '/' s.toList).getLastD s.toList)

/-- pathlib.PurePath.stem of a single path component: the component without
its final extension; a lone leading dot does not start an extension. -/
def stemOfComponent (base : String) : String :=
  match splitChar '.' base.toList with
  | [] => base
  | [_] => base
  | [] :: [_] => base
  | xs => String.mk (List.intercalate ['.'] xs.dropLast)

/-- Path(original_name).stem as used by ImageProcessor._generate_filename. -/
def stem (s : String) : String :=
  stemOfComponent (lastComponent s)

/-- ImageProcessor._generate_filename: stem of the original name, then the
variant suffix, then a dot and the variant format. -/
def generate_filename (original_name : String) (variant : VariantSpec) :
    String :=
  stem original_name ++ variant.suffix ++ "." ++ variant.format

/-- Python dict assignment `d[k] = v`: replace the value at an existing key
in place, otherwise append the binding (insertion order preserved). -/
def dictSet (d : List (String × α)) (k : String) (v : α) :
    List (String × α) :=
  if d.any (fun p => p.1 = k) then
    d.map (fun p => if p.1 = k then (k, v) else p)
  else
    d ++ [(k, v)]

/-- Python dict lookup `d.get(k)`. -/
def dictGet (d : List (String × α)) (k : String) : Option α :=
  (d.find? (fun p => p.1 = k)).map (fun p => p.2)

/-- The return value of ImageProcessor.get_image_urls: the original URL plus
a dict from size-class key to a dict from format to URL. -/
structure ImageUrls where
  original : String
  variants : List (String × List (String × String))
deriving DecidableEq, Repr

/-- ImageProcessor.get_image_urls: pure URL construction under "/uploads".
For every entry of the variant matrix it executes
`urls["variants"][suffix[1:]] = {format: url}` — assigning a fresh
single-key dict at the size-class key, so each iteration replaces whatever
the earlier formats stored there. -/
def get_image_urls (image_hash : String) (original_name : String) :
    ImageUrls :=
  let base_url := "/uploads"
  let original := base_url ++ "/" ++ image_hash ++ "/" ++ original_name
  let variants := variantMatrix.foldl
    (fun acc v =>
      let filename := generate_filename original_name v
      dictSet acc (String.mk (v.suffix.toList.drop 1))
        [(v.format, base_url ++ "/" ++ image_hash ++ "/" ++ filename)])
    []
  ⟨original, variants⟩

/-- ImageProcessor.delete_image, with the uploads directory abstracted to
the list of hash directories that exist: if the hash directory exists it is
removed (rmtree) and the call returns true, otherwise it returns false and
the store is untouched. -/
def delete_image (store : List String) (image_hash : String) :
    Bool × List String :=
  if image_hash ∈ store then
    (true, store.filter (fun x => x ≠ image_hash))
  else
    (false, store)

/-- Modelled from the spec: PIL Image.thumbnail (the PIL library is external
to this repository).  Per the spec, resize is an aspect-ratio-preserving
fit within the bounding box that never upscales beyond the original
dimensions: when the image already fits it is unchanged; otherwise the
binding dimension is set to its bound and the other side is scaled by the
same ratio, rounded down with a floor of 1 pixel.  Exact natural-number
arithmetic stands in for PIL floating point. -/
def thumbnailFit (w h bw bh : Nat) : Nat × Nat :=
  if w ≤ bw ∧ h ≤ bh then (w, h)
  else if h * bw ≤ w * bh then
    (bw, max 1 (h * bw / w))
  else
    (max 1 (w * bh / h), bh)

/-- pathlib.PurePath.with_suffix: replace the extension of the final path
component with `ext` (given with its dot, e.g. ".webp"). -/
def with_suffix (p : String) (ext : String) : String :=
  let comps := splitChar '/' p.toList
  let base := comps.getLastD []
  let newBase := (stemOfComponent (String.mk base)).toList ++ ext.toList
  String.mk (List.intercalate ['/'] (comps.dropLast ++ [newBase]))

/-- Oracles for the effectful parts of ImageProcessor.process_image:
whether PIL has AVIF support compiled in (`avifOk` — the inner
try/except), whether the surrounding per-variant block raises for a given
matrix entry (`genFails` — the outer try/except that logs and skips), and
the on-disk byte size reported by stat for a written file. -/
structure EncodeEnv where
  avifOk : Bool
  genFails : VariantSpec → Bool
  fileSize : String → Nat

/-- The body of the per-variant loop in ImageProcessor.process_image:
resize a copy of the image with thumbnail, build the variant filename,
save it (for the avif matrix entries, fall back to a WEBP save under the
.webp extension when AVIF is unsupported), and append the record — whose
`format` field is taken from the matrix entry, not from the format
actually saved.  A raised exception is logged and the variant skipped. -/
def processVariant (env : EncodeEnv) (image_hash : String)
    (original_name : String) (w h : Nat) (v : VariantSpec) :
    Option ImageVariantRec :=
  if env.genFails v then none
  else
    let dims := thumbnailFit w h v.width v.height
    let filename := generate_filename original_name v
    let path0 := image_hash ++ "/" ++ filename
    let path :=
      if v.format = "avif" ∧ env.avifOk = false then with_suffix path0 ".webp"
      else path0
    some { format := v.format, width := dims.1, height := dims.2,
           quality := v.quality, path := path, size := env.fileSize path,
           suffix := v.suffix }

/-- ImageProcessor.process_image: the descriptor built after writing the
original and looping over the variant matrix.  The md5 content hash is
taken as an input (hashlib is external); `w`, `h` are the original image
dimensions after the color-mode normalization. -/
def process_image (env : EncodeEnv) (image_hash : String)
    (original_name : String) (w h : Nat) : ImageInfo :=
  let variants_created :=
    variantMatrix.filterMap (processVariant env image_hash original_name w h)
  { original_name := original_name,
    hash := image_hash,
    original_path := image_hash ++ "/" ++ original_name,
    variants := variants_created,
    total_size := (variants_created.map (fun v => v.size)).sum }

/-- The bounding box of each size class (thumb 200, medium 800,
large 1920), keyed by the matrix suffix. -/
def classBound (suffix : String) : Nat :=
  if suffix = "_thumb" then 200 else if suffix = "_medium" then 800 else 1920

/-- An encode environment where AVIF support is absent and no other
variant failure occurs. -/
def sampleEnv : EncodeEnv :=
  { avifOk := false, genFails := fun _ => false, fileSize := fun _ => 1000 }

/-! ## Catalog filter engine (CostumeCRUD.get_multi, src/app/crud/costume.py
lines 22-70) -/

/-- CostumeFilter schema (src/app/schemas/costume.py).  The pydantic
default for `is_active` is True; every field is independently optional. -/
structure CostumeFilter where
  name : Option String := none
  gender : Option Gender := none
  age_category : Option AgeCategory := none
  size : Option String := none
  tags : Option (List String) := none
  min_price : Option ℚ := none
  max_price : Option ℚ := none
  min_amount : Option Int := none
  is_active : Option Bool := some true

/-- SQL `column ILIKE pat` with `pat = %value%`: case-insensitive substring
containment (wildcard characters inside the value itself are not
modelled; no claim exercises them). -/
def ilike_contains (hay pat : String) : Bool :=
  let hs := hay.toLower.toList
  let ps := pat.toLower.toList
  (List.range (hs.length + 1)).any (fun i => (hs.drop i).take ps.length = ps)

/-- The conjunction of the conditions built in CostumeCRUD.get_multi.
A condition is appended only when its field passes the Python truthiness
test used there (`if filters.name:` — None and the empty string/list are
falsy; the numeric bounds and is_active use `is not None`).  `tags` adds
one array-containment condition per listed tag, so the costume's tag set
must contain every listed tag; a NULL column never satisfies an SQL
comparison. -/
def conditionsHold (f : CostumeFilter) (c : Costume) : Bool :=
  (match f.name with
   | none => true
   | some n => if n.isEmpty then true else ilike_contains c.name n) &&
  (match f.gender with
   | none => true
   | some g => c.gender = g) &&
  (match f.age_category with
   | none => true
   | some a => c.age_category = a) &&
  (match f.size with
   | none => true
   | some s => if s.isEmpty then true else c.size = some s) &&
  (match f.tags with
   | none => true
   | some ts => ts.all (fun t => c.tags.contains t)) &&
  (match f.min_price with
   | none => true
   | some p => match c.price with
     | none => false
     | some cp => p ≤ cp) &&
  (match f.max_price with
   | none => true
   | some p => match c.price with
     | none => false
     | some cp => cp ≤ p) &&
  (match f.min_amount with
   | none => true
   | some m => m ≤ c.amount) &&
  (match f.is_active with
   | none => true
   | some b => c.is_active = b)

/-- Insertion into a list sorted by created_at descending. -/
def insertByCreatedDesc (c : Costume) : List Costume → List Costume
  | [] => [c]
  | x :: xs =>
    if x.created_at ≤ c.created_at then c :: x :: xs
    else x :: insertByCreatedDesc c xs

/-- ORDER BY created_at DESC as a sort of the row list. -/
def orderByCreatedDesc : List Costume → List Costume
  | [] => []
  | x :: xs => insertByCreatedDesc x (orderByCreatedDesc xs)

/-- CostumeCRUD.get_multi: apply the optional filter conditions, order by
creation time descending, then offset and limit. -/
def get_multi (db : List Costume) (skip limit : Nat)
    (filters : Option CostumeFilter) : List Costume :=
  let rows := match filters with
    | none => db
    | some f => db.filter (fun c => conditionsHold f c)
  ((orderByCreatedDesc rows).drop skip).take limit

/-! ## Admin user management (src/app/routers/admin.py,
src/app/crud/user.py) -/

/-- deactivate_user (routers/admin.py lines 102-126): 404 when the user
does not exist, 400 when targeting the actor's own account; otherwise set
is_active to False and commit.  No check of the target's role is made. -/
def deactivate_user (db : List User) (user_id : Nat) (current_user : User) :
    Except ApiError User × List User :=
  match db.find? (fun u => u.id == user_id) with
  | none => (Except.error ApiError.notFound, db)
  | some u =>
    if u.id == current_user.id then (Except.error ApiError.badRequest, db)
    else
      let u2 := { u with is_active := false }
      (Except.ok u2, db.map (fun x => if x.id == user_id then u2 else x))

/-- delete_user_admin (routers/admin.py lines 40-70): 404 when missing,
400 when deleting one's own account, 403 when a non-super_admin actor
targets a super_admin; otherwise delete the row. -/
def delete_user_admin (db : List User) (user_id : Nat)
    (current_user : User) : Except ApiError Unit × List User :=
  match db.find? (fun u => u.id == user_id) with
  | none => (Except.error ApiError.notFound, db)
  | some u =>
    if u.id == current_user.id then (Except.error ApiError.badRequest, db)
    else if u.role = UserRole.super_admin ∧
        current_user.role ≠ UserRole.super_admin then
      (Except.error ApiError.forbidden, db)
    else
      (Except.ok (), db.filter (fun x => x.id ≠ user_id))

/-- UserCRUD.change_role (crud/user.py lines 217-247): 403 unless the
actor is admin or super_admin, 404 when the target is missing, 403 when a
non-super_admin actor targets a super_admin; otherwise store the new
role. -/
def change_role (db : List User) (user_id : Nat) (role : UserRole)
    (admin_user : User) : Except ApiError User × List User :=
  if admin_user.role = UserRole.admin ∨
      admin_user.role = UserRole.super_admin then
    match db.find? (fun u => u.id == user_id) with
    | none => (Except.error ApiError.notFound, db)
    | some u =>
      if u.role = UserRole.super_admin ∧
          admin_user.role ≠ UserRole.super_admin then
        (Except.error ApiError.forbidden, db)
      else
        let u2 := { u with role := role }
        (Except.ok u2, db.map (fun x => if x.id == user_id then u2 else x))
  else
    (Except.error ApiError.forbidden, db)

/-- Sample user row for concrete instantiations. -/
def sampleUser (i : Nat) (r : UserRole) : User :=
  { id := i, email := "u@example.com", username := "u", full_name := none,
    hashed_password := "hp", role := r, is_active := true,
    is_verified := false, created_at := 0 }

/-! ## CostumeCRUD.update (src/app/crud/costume.py lines 133-199) and
get_related_costumes (lines 238-257) -/

/-- CostumeUpdate schema (src/app/schemas/costume.py lines 72-83): each
field is either absent from the request (outer `none`, excluded by
`exclude_unset`) or present with a value; the nullable columns may also be
present and explicitly null. -/
structure CostumeUpdate where
  name : Option String := none
  description : Option (Option String) := none
  amount : Option Int := none
  price : Option (Option ℚ) := none
  gender : Option Gender := none
  age_category : Option AgeCategory := none
  size : Option (Option String) := none
  tags : Option (List String) := none
  items : Option (Option String) := none
  related_costumes : Option (List Nat) := none
  is_active : Option Bool := none

/-- The `dict(exclude_unset=True)` setattr loop in CostumeCRUD.update:
every field present in the update payload overwrites the column — the
`amount` column included. -/
def applyUpdate (c : Costume) (u : CostumeUpdate) : Costume :=
  { c with
    name := u.name.getD c.name,
    description := u.description.getD c.description,
    amount := u.amount.getD c.amount,
    price := u.price.getD c.price,
    gender := u.gender.getD c.gender,
    age_category := u.age_category.getD c.age_category,
    size := u.size.getD c.size,
    tags := u.tags.getD c.tags,
    items := u.items.getD c.items,
    related_costumes := u.related_costumes.getD c.related_costumes,
    is_active := u.is_active.getD c.is_active }

/-- An uploaded file as seen by the CRUD validation: the client-declared
content type and the byte size. -/
structure Upload where
  filename : String
  content_type : String
  size : Nat

/-- The content types accepted by the image validation in
CostumeCRUD.create and CostumeCRUD.update. -/
def allowedContentTypes : List String :=
  ["image/jpeg", "image/png", "image/webp", "image/avif"]

/-- The add-images loop of CostumeCRUD.update: each file is rejected (400)
when its declared content type is unsupported or its size exceeds 10 MiB;
`image_processor.process_image` may itself raise, which is translated to
400 as well.  `process` is the oracle for that effectful call. -/
def addImagesLoop (process : Upload → Except String ImageInfo) :
    List Upload → Except ApiError (List ImageInfo)
  | [] => Except.ok []
  | f :: fs =>
    if ¬ allowedContentTypes.contains f.content_type then
      Except.error ApiError.badRequest
    else if f.size > 10 * 1024 * 1024 then
      Except.error ApiError.badRequest
    else
      match process f with
      | Except.error _ => Except.error ApiError.badRequest
      | Except.ok info =>
        match addImagesLoop process fs with
        | Except.error e => Except.error e
        | Except.ok rest => Except.ok (info :: rest)

/-- CostumeCRUD.update: 404 when the costume is missing; apply the
explicitly set update fields; when a removal list is given, drop the owned
descriptors whose hash appears in it (their files are deleted from the
store outside the database transaction); when uploads are given, validate,
process and append them.  An HTTPException raised before `db.commit()`
rolls the session back, leaving the database rows unchanged. -/
def costume_update (process : Upload → Except String ImageInfo)
    (db : List Costume) (costume_id : Nat) (u : CostumeUpdate)
    (add_images : List Upload) (remove_image_hashes : List String) :
    Except ApiError Costume × List Costume :=
  match get_by_id db costume_id with
  | none => (Except.error ApiError.notFound, db)
  | some costume =>
    let c1 := applyUpdate costume u
    let c2 :=
      if remove_image_hashes.isEmpty then c1
      else { c1 with images :=
        (c1.images.filter
          (fun im => ¬ remove_image_hashes.contains im.hash)) }
    match addImagesLoop process add_images with
    | Except.error e => (Except.error e, db)
    | Except.ok new_images =>
      let c3 :=
        if add_images.isEmpty then c2
        else { c2 with images := c2.images ++ new_images }
      (Except.ok c3,
       db.map (fun x => if x.id == costume_id then c3 else x))

/-- CostumeCRUD.get_related_costumes: an unknown id or an empty related
list yields the empty list (not an error); otherwise the active costumes
among the stored related ids. -/
def get_related_costumes (db : List Costume) (costume_id : Nat) :
    List Costume :=
  match get_by_id db costume_id with
  | none => []
  | some costume =>
    if costume.related_costumes.isEmpty then []
    else db.filter
      (fun x => costume.related_costumes.contains x.id && x.is_active)

/-- C1: for a costume with current amount `a`, `adjustAmount(id, d)` fails
(with the negative-inventory error, leaving the database unchanged) exactly
when `a + d < 0`; otherwise it succeeds, the returned costume has amount
`a + d`, and the stored row is updated to `a + d` — no upper bound is
enforced. -/
theorem c1_adjust_amount (db : List Costume) (cid : Nat) (d : Int)
    (c : Costume) (hfind : get_by_id db cid = some c) :
    ((update_amount db cid d).1 = Except.error ApiError.badRequest ↔
        c.amount + d < 0) ∧
    (c.amount + d < 0 → (update_amount db cid d).2 = db) ∧
    (0 ≤ c.amount + d →
      update_amount db cid d =
        (Except.ok { c with amount := c.amount + d },
         db.map (fun x => if x.id == cid then { c with amount := c.amount + d }
                          else x))) := by
  unfold update_amount
  rw [hfind]
  by_cases hneg : c.amount + d < 0
  · refine ⟨?_, fun _ => ?_, fun hge => absurd hneg (by omega)⟩
    · simp [hneg]
    · simp [hneg]
  · refine ⟨?_, fun h => absurd h hneg, fun _ => ?_⟩
    · simp [hneg]
    · simp [hneg]

/-- Concrete instantiation of `c1_adjust_amount`: a costume with amount 3;
delta -3 brings the amount to exactly 0 and succeeds, delta -4 fails and
leaves the database unchanged. -/
theorem c1_adjust_amount_witness :
    ((update_amount [sampleCostume 7 "Witch" 3 []] 7 (-4)).1 =
        Except.error ApiError.badRequest) ∧
    ((update_amount [sampleCostume 7 "Witch" 3 []] 7 (-4)).2 =
        [sampleCostume 7 "Witch" 3 []]) ∧
    (update_amount [sampleCostume 7 "Witch" 3 []] 7 (-3)).1 =
        Except.ok { sampleCostume 7 "Witch" 3 [] with amount := 0 } := by
  have hfind : get_by_id [sampleCostume 7 "Witch" 3 []] 7 =
      some (sampleCostume 7 "Witch" 3 []) := by decide
  have h1 := c1_adjust_amount [sampleCostume 7 "Witch" 3 []] 7 (-4)
    (sampleCostume 7 "Witch" 3 []) hfind
  have h2 := c1_adjust_amount [sampleCostume 7 "Witch" 3 []] 7 (-3)
    (sampleCostume 7 "Witch" 3 []) hfind
  refine ⟨h1.1.mpr (by decide), h1.2.1 (by decide), ?_⟩
  have h3 := h2.2.2 (by decide)
  rw [h3]
  rfl

/-- C3 (code-bug evidence): at hash "abc" and original name "photo.jpg",
each size class's inner format dict holds only the "jpg" key — every
iteration assigns a fresh single-key dict at the size-class key, so the
webp and avif URLs written earlier are overwritten, contradicting the
claim that all three format keys are present. -/
theorem c3_urls_missing_formats :
    (get_image_urls "abc" "photo.jpg").variants =
      [("thumb", [("jpg", "/uploads/abc/photo_thumb.jpg")]),
       ("medium", [("jpg", "/uploads/abc/photo_medium.jpg")]),
       ("large", [("jpg", "/uploads/abc/photo_large.jpg")])] ∧
    (∃ inner, dictGet (get_image_urls "abc" "photo.jpg").variants "thumb" =
        some inner ∧ dictGet inner "webp" = none ∧
        dictGet inner "avif" = none) := by
  refine ⟨by decide, ⟨[("jpg", "/uploads/abc/photo_thumb.jpg")], ?_, ?_, ?_⟩⟩
  · decide
  · decide
  · decide

/-- C9: `urlsFor` is a pure, deterministic function of the pair
(hash, original filename): equal arguments give identical output, and the
embedding itself is a total Lean function, matching the source, which only
concatenates strings and performs no I/O. -/
theorem c9_urls_pure (h1 n1 h2 n2 : String) (hh : h1 = h2) (hn : n1 = n2) :
    get_image_urls h1 n1 = get_image_urls h2 n2 := by
  rw [hh, hn]

/-- Concrete instantiation of `c9_urls_pure`. -/
theorem c9_urls_pure_witness :
    get_image_urls "abc" "photo.jpg" = get_image_urls "abc" "photo.jpg" :=
  c9_urls_pure "abc" "photo.jpg" "abc" "photo.jpg" rfl rfl

/-- C8: deleting a hash whose directory does not exist returns false and
leaves the store untouched; deleting an existing hash removes the whole
hash directory and returns true, and an immediately repeated delete of the
same hash then returns false. -/
theorem c8_delete_by_hash (store : List String) (hsh : String) :
    (hsh ∉ store → delete_image store hsh = (false, store)) ∧
    (hsh ∈ store →
      (delete_image store hsh).1 = true ∧
      hsh ∉ (delete_image store hsh).2 ∧
      (delete_image ((delete_image store hsh).2) hsh).1 = false) := by
  constructor
  · intro hnm
    simp [delete_image, hnm]
  · intro hm
    have hnotin : hsh ∉ store.filter (fun x => x ≠ hsh) := by
      intro hmem
      have h2 := (List.mem_filter.mp hmem).2
      simp at h2
    refine ⟨by simp [delete_image, hm], ?_, ?_⟩
    · simp [delete_image, hm]
    · simp [delete_image, hm, hnotin]

/-- Helper: the thumbnail fit never exceeds the bounding box nor the
original dimensions, for positive dimensions and boxes. -/
theorem thumbnailFit_le (w h bw bh : Nat) (hw : 0 < w) (hh : 0 < h)
    (hbw : 0 < bw) (hbh : 0 < bh) :
    (thumbnailFit w h bw bh).1 ≤ bw ∧ (thumbnailFit w h bw bh).1 ≤ w ∧
    (thumbnailFit w h bw bh).2 ≤ bh ∧ (thumbnailFit w h bw bh).2 ≤ h := by
  unfold thumbnailFit
  by_cases h1 : w ≤ bw ∧ h ≤ bh
  · rw [if_pos h1]
    exact ⟨h1.1, le_refl w, h1.2, le_refl h⟩
  · rw [if_neg h1]
    by_cases h2 : h * bw ≤ w * bh
    · rw [if_pos h2]
      have hbww : bw ≤ w := by
        by_contra hc
        push_neg at hc
        have hwble : w ≤ bw := le_of_lt hc
        have hhb : bh < h := by
          by_contra hcb
          push_neg at hcb
          exact h1 ⟨hwble, hcb⟩
        nlinarith
      have hd1 : h * bw / w ≤ bh := Nat.div_le_of_le_mul h2
      have hd2 : h * bw / w ≤ h :=
        Nat.div_le_of_le_mul (by nlinarith)
      exact ⟨le_refl bw, hbww, Nat.max_le.mpr ⟨hbh, hd1⟩,
        Nat.max_le.mpr ⟨hh, hd2⟩⟩
    · rw [if_neg h2]
      push_neg at h2
      have hbhh : bh ≤ h := by
        by_contra hc
        push_neg at hc
        have hhble : h ≤ bh := le_of_lt hc
        have hwb : bw < w := by
          by_contra hcb
          push_neg at hcb
          exact h1 ⟨hcb, hhble⟩
        nlinarith
      have hd1 : w * bh / h ≤ bw :=
        Nat.div_le_of_le_mul (by nlinarith)
      have hd2 : w * bh / h ≤ w :=
        Nat.div_le_of_le_mul (by nlinarith)
      exact ⟨Nat.max_le.mpr ⟨hbw, hd1⟩, Nat.max_le.mpr ⟨hw, hd2⟩,
        le_refl bh, hbhh⟩

/-- C7: for every encode environment and every original image with positive
dimensions, `ingest` records at most 9 variants (one per matrix entry that
did not fail), and every recorded variant's width and height fit within its
size class's bounding box (thumb 200, medium 800, large 1920) and never
exceed the original dimensions — no upscaling. -/
theorem c7_variant_bounds (env : EncodeEnv) (ihash oname : String)
    (w h : Nat) (hw : 0 < w) (hh : 0 < h) :
    (process_image env ihash oname w h).variants.length ≤ 9 ∧
    ∀ r ∈ (process_image env ihash oname w h).variants,
      r.width ≤ classBound r.suffix ∧ r.height ≤ classBound r.suffix ∧
      r.width ≤ w ∧ r.height ≤ h := by
  have hmatrix : ∀ v ∈ variantMatrix,
      0 < v.width ∧ v.width = classBound v.suffix ∧ v.height = v.width := by
    decide
  constructor
  · calc (process_image env ihash oname w h).variants.length
        ≤ variantMatrix.length := List.length_filterMap_le _ _
    _ = 9 := by decide
  · intro r hr
    obtain ⟨v, hv, hpv⟩ := List.mem_filterMap.mp hr
    obtain ⟨hvw, hvcb, hvhw⟩ := hmatrix v hv
    unfold processVariant at hpv
    by_cases hg : env.genFails v
    · simp [hg] at hpv
    · simp only [hg, if_false, Bool.false_eq_true, Option.some.injEq] at hpv
      have hfit := thumbnailFit_le w h v.width v.height hw hh hvw
        (by rw [hvhw]; exact hvw)
      have hcb2 : classBound v.suffix = v.height := by
        rw [hvhw, hvcb]
      rw [← hpv]
      dsimp only
      refine ⟨?_, ?_, ?_, ?_⟩
      · rw [← hvcb]
        exact hfit.1
      · rw [hcb2]
        exact hfit.2.2.1
      · exact hfit.2.1
      · exact hfit.2.2.2

/-- Concrete instantiation of `c7_variant_bounds`: a 1000 x 500 original
in an environment without AVIF support. -/
theorem c7_variant_bounds_witness :
    (process_image sampleEnv "abc" "photo.jpg" 1000 500).variants.length ≤ 9 ∧
    ∀ r ∈ (process_image sampleEnv "abc" "photo.jpg" 1000 500).variants,
      r.width ≤ classBound r.suffix ∧ r.height ≤ classBound r.suffix ∧
      r.width ≤ 1000 ∧ r.height ≤ 500 :=
  c7_variant_bounds sampleEnv "abc" "photo.jpg" 1000 500 (by decide) (by decide)

/-- C2 (counterexample): in an environment without AVIF support, the thumb
avif slot of a 1000 x 500 ingest is saved as a .webp file, yet the record's
`format` field is "avif", not "webp" — the loop appends
`variant['format']` from the matrix entry unchanged. -/
theorem c2_avif_fallback_counterexample :
    (processVariant sampleEnv "abc" "photo.jpg" 1000 500
        ⟨"avif", 200, 200, 80, "_thumb"⟩).map
      (fun r => (r.format, r.path)) =
      some ("avif", "abc/photo_thumb.webp") := by
  decide

/-- C2 (amended): when AVIF encoding is unavailable and the variant block
does not otherwise fail, a WEBP encode at the same dimensions and quality
is substituted for the avif slot — the recorded path carries the .webp
extension — but the descriptor record's `format` field remains "avif"
(the matrix entry's format), not "webp". -/
theorem c2_avif_fallback_amended (env : EncodeEnv) (ihash oname : String)
    (w h : Nat) (v : VariantSpec)
    (hfmt : v.format = "avif") (hav : env.avifOk = false)
    (hg : env.genFails v = false) :
    processVariant env ihash oname w h v =
      some { format := "avif",
             width := (thumbnailFit w h v.width v.height).1,
             height := (thumbnailFit w h v.width v.height).2,
             quality := v.quality,
             path := with_suffix (ihash ++ "/" ++ generate_filename oname v)
               ".webp",
             size := env.fileSize
               (with_suffix (ihash ++ "/" ++ generate_filename oname v)
                 ".webp"),
             suffix := v.suffix } := by
  unfold processVariant
  simp [hg, hfmt, hav]

/-- Concrete instantiation of `c2_avif_fallback_amended` at the thumb avif
slot. -/
theorem c2_avif_fallback_amended_witness :
    processVariant sampleEnv "abc" "photo.jpg" 1000 500
        ⟨"avif", 200, 200, 80, "_thumb"⟩ =
      some { format := "avif", width := 200, height := 100, quality := 80,
             path := "abc/photo_thumb.webp", size := 1000,
             suffix := "_thumb" } := by
  have h := c2_avif_fallback_amended sampleEnv "abc" "photo.jpg" 1000 500
    ⟨"avif", 200, 200, 80, "_thumb"⟩ (by decide) (by decide) (by decide)
  rw [h]
  decide

/-- Concrete instantiation of `c8_delete_by_hash` on a one-directory
store. -/
theorem c8_delete_by_hash_witness :
    delete_image ["aaa"] "bbb" = (false, ["aaa"]) ∧
    (delete_image ["aaa"] "aaa").1 = true ∧
    (delete_image ((delete_image ["aaa"] "aaa").2) "aaa").1 = false := by
  have h1 := c8_delete_by_hash ["aaa"] "bbb"
  have h2 := c8_delete_by_hash ["aaa"] "aaa"
  exact ⟨h1.1 (by decide), (h2.2 (by decide)).1, (h2.2 (by decide)).2.2⟩

/-- Helper: membership in the descending insertion. -/
theorem mem_insertByCreatedDesc (a c : Costume) (l : List Costume) :
    a ∈ insertByCreatedDesc c l ↔ a = c ∨ a ∈ l := by
  induction l with
  | nil => simp [insertByCreatedDesc]
  | cons x xs ih =>
    unfold insertByCreatedDesc
    by_cases hle : x.created_at ≤ c.created_at
    · simp [hle]
    · simp [hle, ih]
      tauto

/-- Helper: ordering the rows does not change membership. -/
theorem mem_orderByCreatedDesc (a : Costume) (l : List Costume) :
    a ∈ orderByCreatedDesc l ↔ a ∈ l := by
  induction l with
  | nil => simp [orderByCreatedDesc]
  | cons x xs ih =>
    simp [orderByCreatedDesc, mem_insertByCreatedDesc, ih]

/-- Helper: the descending insertion adds one element to the length. -/
theorem length_insertByCreatedDesc (c : Costume) (l : List Costume) :
    (insertByCreatedDesc c l).length = l.length + 1 := by
  induction l with
  | nil => rfl
  | cons x xs ih =>
    unfold insertByCreatedDesc
    by_cases hle : x.created_at ≤ c.created_at
    · simp [hle]
    · simp [hle, ih]

/-- Helper: ordering preserves the number of rows. -/
theorem length_orderByCreatedDesc (l : List Costume) :
    (orderByCreatedDesc l).length = l.length := by
  induction l with
  | nil => rfl
  | cons x xs ih =>
    simp [orderByCreatedDesc, length_insertByCreatedDesc, ih]

/-- C4: with a non-empty tag list T and no other filter condition set, the
filter query returns exactly the costumes whose tag set contains every tag
in T (AND semantics). -/
theorem c4_tags_and_semantics (db : List Costume) (T : List String)
    (_hT : T ≠ []) (c : Costume) :
    (c ∈ get_multi db 0 db.length
        (some { tags := some T, is_active := none }) ↔
      c ∈ db ∧ ∀ t ∈ T, t ∈ c.tags) := by
  unfold get_multi
  simp only [List.drop_zero]
  rw [List.take_of_length_le, mem_orderByCreatedDesc, List.mem_filter]
  · constructor
    · rintro ⟨hmem, hcond⟩
      refine ⟨hmem, ?_⟩
      simp [conditionsHold] at hcond
      exact hcond
    · rintro ⟨hmem, hall⟩
      refine ⟨hmem, ?_⟩
      simp [conditionsHold]
      exact hall
  · rw [length_orderByCreatedDesc]
    exact List.length_filter_le _ _

/-- Concrete instantiation of `c4_tags_and_semantics`: with
tags = ["A","B"], a costume tagged ["A","B"] is returned and a costume
tagged only ["A"] is excluded. -/
theorem c4_tags_and_semantics_witness :
    (sampleCostume 2 "AB" 1 ["A", "B"] ∈
      get_multi [sampleCostume 1 "A" 1 ["A"], sampleCostume 2 "AB" 1 ["A", "B"]]
        0 2 (some { tags := some ["A", "B"], is_active := none })) ∧
    (sampleCostume 1 "A" 1 ["A"] ∉
      get_multi [sampleCostume 1 "A" 1 ["A"], sampleCostume 2 "AB" 1 ["A", "B"]]
        0 2 (some { tags := some ["A", "B"], is_active := none })) := by
  have hin := c4_tags_and_semantics
    [sampleCostume 1 "A" 1 ["A"], sampleCostume 2 "AB" 1 ["A", "B"]]
    ["A", "B"] (by decide) (sampleCostume 2 "AB" 1 ["A", "B"])
  have hout := c4_tags_and_semantics
    [sampleCostume 1 "A" 1 ["A"], sampleCostume 2 "AB" 1 ["A", "B"]]
    ["A", "B"] (by decide) (sampleCostume 1 "A" 1 ["A"])
  constructor
  · exact hin.mpr ⟨by decide, by decide⟩
  · intro hmem
    exact absurd ((hout.mp hmem).2 "B" (by decide)) (by decide)

/-- C5 (counterexample): an admin who is not a super_admin deactivates a
super_admin target successfully — the deactivate endpoint checks only
existence and self-targeting, never the target's role, so the claim that
this fails with Forbidden is false. -/
theorem c5_super_admin_counterexample :
    deactivate_user
        [sampleUser 1 UserRole.admin, sampleUser 2 UserRole.super_admin] 2
        (sampleUser 1 UserRole.admin) =
      (Except.ok { sampleUser 2 UserRole.super_admin with is_active := false },
       [sampleUser 1 UserRole.admin,
        { sampleUser 2 UserRole.super_admin with is_active := false }]) := by
  rfl

/-- C5 (amended): a non-super_admin actor cannot demote (change_role) or
delete a super_admin target — both fail with Forbidden and leave the
database unchanged — and no actor can deactivate or delete their own
account (those fail with a 400 error); but deactivation does not check the
target's role, so a non-super_admin admin CAN deactivate a super_admin. -/
theorem c5_super_admin_amended (db : List User) (uid : Nat)
    (actor target : User)
    (hfind : db.find? (fun u => u.id == uid) = some target) :
    (target.role = UserRole.super_admin →
      actor.role ≠ UserRole.super_admin →
      (∀ r, change_role db uid r actor =
        (Except.error ApiError.forbidden, db)) ∧
      (target.id ≠ actor.id →
        delete_user_admin db uid actor =
          (Except.error ApiError.forbidden, db))) ∧
    (target.id = actor.id →
      deactivate_user db uid actor =
        (Except.error ApiError.badRequest, db) ∧
      delete_user_admin db uid actor =
        (Except.error ApiError.badRequest, db)) := by
  constructor
  · intro htr har
    constructor
    · intro r
      cases hact : actor.role with
      | user => simp [change_role, hact]
      | admin => simp [change_role, hact, hfind, htr]
      | super_admin => exact absurd hact har
    · intro hid
      simp [delete_user_admin, hfind, hid, htr, har]
  · intro hid
    constructor
    · simp [deactivate_user, hfind, hid]
    · simp [delete_user_admin, hfind, hid]

/-- Concrete instantiation of `c5_super_admin_amended`: an admin actor, a
super_admin target, and a self-deactivation attempt. -/
theorem c5_super_admin_amended_witness :
    (change_role
        [sampleUser 1 UserRole.admin, sampleUser 2 UserRole.super_admin] 2
        UserRole.user (sampleUser 1 UserRole.admin) =
      (Except.error ApiError.forbidden,
       [sampleUser 1 UserRole.admin, sampleUser 2 UserRole.super_admin])) ∧
    (delete_user_admin
        [sampleUser 1 UserRole.admin, sampleUser 2 UserRole.super_admin] 2
        (sampleUser 1 UserRole.admin) =
      (Except.error ApiError.forbidden,
       [sampleUser 1 UserRole.admin, sampleUser 2 UserRole.super_admin])) ∧
    (deactivate_user
        [sampleUser 1 UserRole.admin, sampleUser 2 UserRole.super_admin] 1
        (sampleUser 1 UserRole.admin) =
      (Except.error ApiError.badRequest,
       [sampleUser 1 UserRole.admin, sampleUser 2 UserRole.super_admin])) := by
  have h1 := c5_super_admin_amended
    [sampleUser 1 UserRole.admin, sampleUser 2 UserRole.super_admin] 2
    (sampleUser 1 UserRole.admin) (sampleUser 2 UserRole.super_admin)
    (by decide)
  have h2 := c5_super_admin_amended
    [sampleUser 1 UserRole.admin, sampleUser 2 UserRole.super_admin] 1
    (sampleUser 1 UserRole.admin) (sampleUser 1 UserRole.admin)
    (by decide)
  exact ⟨(h1.1 (by decide) (by decide)).1 UserRole.user,
    (h1.1 (by decide) (by decide)).2 (by decide),
    (h2.2 (by decide)).1⟩

/-- C6 (counterexample): the generic update operation with the `amount`
field explicitly set changes the costume's amount — from 3 to 5 here — so
amount is NOT changed only by the dedicated delta operation. -/
theorem c6_amount_frame_counterexample :
    (costume_update (fun _ => Except.error "unused")
        [sampleCostume 3 "Witch" 3 []] 3
        { amount := some 5 } [] []).1 =
      Except.ok { sampleCostume 3 "Witch" 3 [] with amount := 5 } := by
  rfl

/-- C6 (amended): the generic update leaves `amount` unchanged whenever its
`amount` field is not set — in particular image add/remove operations do
not touch it — but an update payload that does set `amount` overwrites it,
so `adjustAmount` is not the only operation that changes the amount. -/
theorem c6_amount_frame_amended
    (process : Upload → Except String ImageInfo) (db : List Costume)
    (cid : Nat) (u : CostumeUpdate) (adds : List Upload)
    (removes : List String) (c c3 : Costume)
    (hfind : get_by_id db cid = some c) (hamt : u.amount = none)
    (hok : (costume_update process db cid u adds removes).1 =
      Except.ok c3) :
    c3.amount = c.amount := by
  unfold costume_update at hok
  rw [hfind] at hok
  cases hloop : addImagesLoop process adds with
  | error e =>
    rw [hloop] at hok
    simp at hok
  | ok ni =>
    rw [hloop] at hok
    simp at hok
    rw [← hok]
    split_ifs <;> simp [applyUpdate, hamt]

/-- Concrete instantiation of `c6_amount_frame_amended`: a name-only update
leaves amount at 3. -/
theorem c6_amount_frame_amended_witness :
    ((costume_update (fun _ => Except.error "unused")
        [sampleCostume 3 "Witch" 3 []] 3
        { name := some "W2" } [] []).1 =
      Except.ok { sampleCostume 3 "Witch" 3 [] with name := "W2" }) ∧
    ({ sampleCostume 3 "Witch" 3 [] with name := "W2" } : Costume).amount =
      3 := by
  refine ⟨by rfl, ?_⟩
  exact c6_amount_frame_amended (fun _ => Except.error "unused")
    [sampleCostume 3 "Witch" 3 []] 3 { name := some "W2" } [] []
    (sampleCostume 3 "Witch" 3 [])
    { sampleCostume 3 "Witch" 3 [] with name := "W2" }
    (by decide) rfl (by rfl)

/-- C10: the public related-costumes operation returns the empty list (not
an error) both when no costume with the given id exists and when the
costume's related list is empty, and every returned costume is active. -/
theorem c10_related_costumes (db : List Costume) (cid : Nat) :
    (get_by_id db cid = none → get_related_costumes db cid = []) ∧
    (∀ c, get_by_id db cid = some c → c.related_costumes = [] →
      get_related_costumes db cid = []) ∧
    (∀ x ∈ get_related_costumes db cid, x.is_active = true) := by
  refine ⟨?_, ?_, ?_⟩
  · intro hnone
    unfold get_related_costumes
    rw [hnone]
  · intro c hsome hrel
    unfold get_related_costumes
    rw [hsome]
    simp [hrel]
  · intro x hx
    unfold get_related_costumes at hx
    cases hfind : get_by_id db cid with
    | none =>
      rw [hfind] at hx
      simp at hx
    | some c =>
      rw [hfind] at hx
      dsimp only at hx
      by_cases hrel : c.related_costumes.isEmpty
      · rw [if_pos hrel] at hx
        simp at hx
      · rw [if_neg hrel] at hx
        have h2 := (List.mem_filter.mp hx).2
        simp at h2
        exact h2.2

/-- Concrete instantiation of `c10_related_costumes`: a missing id and an
empty related list both give the empty list. -/
theorem c10_related_costumes_witness :
    get_related_costumes [sampleCostume 1 "A" 1 []] 99 = [] ∧
    get_related_costumes [sampleCostume 1 "A" 1 []] 1 = [] := by
  have h1 := c10_related_costumes [sampleCostume 1 "A" 1 []] 99
  have h2 := c10_related_costumes [sampleCostume 1 "A" 1 []] 1
  exact ⟨h1.1 (by decide),
    h2.2.1 (sampleCostume 1 "A" 1 []) (by decide) rfl⟩

end BeriCosplay
